import Mathlib

/-!
Shallow embedding of `frappe_mailchimp/utils/transactional_email.py`.

The module under verification is a thin wrapper over the Mailchimp
Transactional (Mandrill) SDK inside the Frappe framework.  External
collaborators (the JSON parser `json.loads`, the settings lookup
`frappe.get_value`, the provider client `client.messages.send_template`,
and the logger `frappe.log_error`) are modelled as components of an
explicit environment `Env`; exceptions are modelled with `Except` and the
`Exc` type below, which distinguishes the provider's `ApiClientError`
from every other Python exception, because that is the only distinction
the source's `except` clauses make.

Python dictionaries appearing as recipients / template variables are
modelled as association lists `List (String × JVal)`.  Every claim only
exercises scalar field values, so `JVal` carries the scalar JSON values
(null, string, integer, boolean); the provider's opaque response is also
a `JVal`.
-/

namespace FrappeMailchimp

deriving instance DecidableEq for Except

/-- Scalar JSON-ish value (Python `None`/`str`/`int`/`bool`). -/
inductive JVal where
  | null
  | s (v : String)
  | i (v : Int)
  | b (v : Bool)
deriving DecidableEq, Repr

/-- A Python dict, as used for one recipient or one template variable. -/
abbrev Dict := List (String × JVal)

/-- Python `d.get(k, None)`: the stored value, or `None` when the key is
absent.  A stored JSON null and an absent key both come out as
`JVal.null`, exactly as both come out as `None` in the source. -/
def pyGet (d : Dict) (k : String) : JVal :=
  match d.find? (fun p => p.1 == k) with
  | some p => p.2
  | none => JVal.null

/-- Python exceptions, at the granularity the source distinguishes them:
`ApiClientError` (the provider SDK's structured error) is caught by the
first `except` clause; `frappe.throw` raises `frappe.ValidationError`
with the given message; `json.loads` failure raises `JSONDecodeError`
(here carrying the offending input); anything else raised during the
provider call is `otherError`. -/
inductive Exc where
  | apiClientError (detail : String)
  | validationError (msg : String)
  | jsonDecodeError (input : String)
  | otherError (detail : String)
deriving DecidableEq, Repr

/-- The `"message"` sub-dict of the outbound payload built in
`_send_message`. -/
structure Message where
  msg_to : Option (List Dict)
  subject : Option String
  from_email : String
  merge_language : String
  global_merge_vars : Option (List Dict)
deriving DecidableEq, Repr

/-- The payload handed to `client.messages.send_template`. -/
structure Payload where
  template_name : Option String
  template_content : List Dict
  message : Message
deriving DecidableEq, Repr

/-- The payload dict literal from `_send_message`, field for field:
`template_content` is always the empty list ("for backward compatibility
reason"), `merge_language` is always `"handlebars"`. -/
def mkPayload (template : Option String) (recipients : Option (List Dict))
    (subject : Option String) (from_email : String)
    (vars : Option (List Dict)) : Payload :=
  ⟨template, [], ⟨recipients, subject, from_email, "handlebars", vars⟩⟩

/-- The external world: `parse` is `json.loads` restricted to the
list-of-dicts shapes the module feeds it (`none` = `JSONDecodeError`);
`apiKey` is the `frappe.get_value` lookup of the transactional email API
key (`none` = missing setting); `sendTemplate key payload` is the
provider call made by the client constructed with `key`. -/
structure Env where
  parse : String → Option (List Dict)
  apiKey : Option String
  sendTemplate : String → Payload → Except Exc JVal

/-- A `recipients` / `variables` argument as the Python function can
receive it: a serialized string, an already-structured list of dicts, or
`None`. -/
inductive Arg where
  | raw (str : String)
  | lst (ds : List Dict)
  | pynone
deriving Repr

/-- Lines 31-34 of the source: `if isinstance(x, string_types): x =
json.loads(x)`.  A failing parse raises before any try/except is
entered. -/
def normalizeArg (parse : String → Option (List Dict)) :
    Arg → Except Exc (Option (List Dict))
  | .raw str =>
    match parse str with
    | some ds => .ok (some ds)
    | none => .error (.jsonDecodeError str)
  | .lst ds => .ok (some ds)
  | .pynone => .ok none

/-- The `for recipient in recipients` loop of `_validate_recipients`:
throw `"Email must be specified"` at the first entry whose `email` is
absent or `None`. -/
def checkEmails : List Dict → Except Exc Unit
  | [] => .ok ()
  | r :: rest =>
    if pyGet r "email" == JVal.null then
      .error (.validationError "Email must be specified")
    else
      checkEmails rest

/-- `_validate_recipients`: throw `"Recipients must be defined"` when the
list is `None` or empty, then check each entry's `email`. -/
def _validate_recipients (recipients : Option (List Dict)) : Except Exc Unit :=
  match recipients with
  | none => .error (.validationError "Recipients must be defined")
  | some rs =>
    if rs.length == 0 then
      .error (.validationError "Recipients must be defined")
    else
      checkEmails rs

/-- The `all(map(lambda x: ...))` test of `_validate_template`: every
variable carries a non-`None` `name` and a non-`None` `content`. -/
def varsOk (vs : List Dict) : Bool :=
  vs.all fun x => !(pyGet x "name" == JVal.null) && !(pyGet x "content" == JVal.null)

/-- `_validate_template`: throw `"Template name missing"` when the
template is `None` or empty; when the variables list is truthy (not
`None`, not empty) and some entry lacks `name` or `content`, throw the
invalid-template-content message (here abbreviated to its first clause,
`"Template Content invalid"`). -/
def _validate_template (template : Option String) (vars : Option (List Dict)) :
    Except Exc Unit :=
  match template with
  | none => .error (.validationError "Template name missing")
  | some t =>
    if t.length == 0 then
      .error (.validationError "Template name missing")
    else
      match vars with
      | none => .ok ()
      | some vs =>
        if vs.length == 0 then
          .ok ()
        else if varsOk vs then
          .ok ()
        else
          .error (.validationError "Template Content invalid")

/-- `get_mailchimp_api_key`: fetch the key from Mailchimp Settings and
`frappe.throw("Mailchimp API Key not specified")` when it is `None`. -/
def get_mailchimp_api_key (env : Env) : Except Exc String :=
  match env.apiKey with
  | none => .error (.validationError "Mailchimp API Key not specified")
  | some k => .ok k

/-- `_send_message`: validate recipients, validate template and
variables, build the client from the configured key, and invoke
`send_template` on the payload dict. -/
def _send_message (env : Env) (recipients : Option (List Dict))
    (subject : Option String) (from_email : String) (template : Option String)
    (vars : Option (List Dict)) : Except Exc JVal := do
  _validate_recipients recipients
  _validate_template template vars
  let key ← get_mailchimp_api_key env
  env.sendTemplate key (mkPayload template recipients subject from_email vars)

/-- The outcome of one call of `send_email_with_template`: either a
propagated exception, or the returned value (`none` = Python's implicit
`return None` after a swallowed exception), paired with the list of
`frappe.log_error` titles written during the call. -/
abbrev SendOutcome := Except Exc (Option JVal) × List String

/-- `send_email_with_template`: normalize serialized arguments (outside
any try/except), then either call `_send_message` under a try/except
that logs `"Mailchimp: API Error"` for an `ApiClientError` and
`"Mailchimp: Error"` for any other exception (`raise_exc = false`), or
call it bare so every exception propagates (`raise_exc = true`). -/
def send_email_with_template (env : Env) (recipients : Arg) (from_email : String)
    (template : Option String) (vars : Arg) (subject : Option String)
    (raise_exc : Bool) : SendOutcome :=
  match normalizeArg env.parse recipients with
  | .error e => (.error e, [])
  | .ok rs =>
    match normalizeArg env.parse vars with
    | .error e => (.error e, [])
    | .ok vs =>
      if !raise_exc then
        match _send_message env rs subject from_email template vs with
        | .ok r => (.ok (some r), [])
        | .error (.apiClientError _) => (.ok none, ["Mailchimp: API Error"])
        | .error _ => (.ok none, ["Mailchimp: Error"])
      else
        match _send_message env rs subject from_email template vs with
        | .ok r => (.ok (some r), [])
        | .error e => (.error e, [])

/-!
## `create_vars_from_doc`

The helper turns a Frappe `Document` into a list of template variables.
A document is modelled as `Option Doc`: `none` is Python's `None`
argument (the only falsy value a `Document`-typed parameter takes, so
`if not doc` tests exactly for it), and a `Doc` is the document's
ordered field/value mapping.  `DocVal` carries the field values the loop
distinguishes: scalars, `datetime.date`, and the composites (`list`,
`tuple`, `dict`) that are skipped.  An output entry
`{"name": k, "content": v}` is modelled as the pair `(k, v)`.
-/

/-- A Frappe document field value. -/
inductive DocVal where
  | null
  | s (v : String)
  | i (v : Int)
  | b (v : Bool)
  | date (y m d : Nat)
  | lst (vs : List DocVal)
  | tup (vs : List DocVal)
  | dict (fs : List (String × DocVal))
deriving Repr

/-- The document's ordered field/value mapping. -/
abbrev Doc := List (String × DocVal)

/-- Python `v is None` for a document field value. -/
def DocVal.isNull : DocVal → Bool
  | .null => true
  | _ => false

def pad2 (n : Nat) : String :=
  if n < 10 then "0" ++ toString n else toString n

def pad4 (n : Nat) : String :=
  if n < 10 then "000" ++ toString n
  else if n < 100 then "00" ++ toString n
  else if n < 1000 then "0" ++ toString n
  else toString n

/-- `str(datetime.date(y, m, d))`, the canonical `YYYY-MM-DD` form used
by `as_dict(convert_dates_to_str=True)`. -/
def dateToStr (y m d : Nat) : String :=
  pad4 y ++ "-" ++ pad2 m ++ "-" ++ pad2 d

/-- `frappe.utils.get_datetime_str` applied to a date: the datetime
string with a zero time part. -/
def get_datetime_str (y m d : Nat) : String :=
  dateToStr y m d ++ " 00:00:00.000000"

def convDate : DocVal → DocVal
  | .date y m d => .s (dateToStr y m d)
  | v => v

/-- `doc.as_dict(convert_dates_to_str=True, no_nulls=True)`, the external
Frappe call at the top of `create_vars_from_doc`: drop fields whose
value is `None` and render date values as strings (at the top level,
which is the only level the loop below inspects). -/
def as_dict_nn (doc : Doc) : Doc :=
  (doc.filter fun p => !(p.2.isNull)).map fun p => (p.1, convDate p.2)

/-- Python `d.get(k)` on the converted document (`None` when absent). -/
def docGet (d : Doc) (k : String) : DocVal :=
  match d.find? (fun p => p.1 == k) with
  | some p => p.2
  | none => DocVal.null

/-- Python `str.lower` on one character (ASCII, which is all the claims
exercise). -/
def lowerChar (c : Char) : Char := c.toLower

/-- Python `str.lower`, written over the character list so that it
computes by kernel reduction. -/
def lowerString (s : String) : String := String.mk (s.data.map lowerChar)

/-- Python `s.replace(a, b)` for one-character patterns, the only shape
`frappe.scrub` uses. -/
def replCharStr (a b : Char) (s : String) : String :=
  String.mk (s.data.map fun c => if c == a then b else c)

/-- `frappe.scrub`: spaces and hyphens to underscores, lowercased. -/
def scrub (txt : String) : String :=
  lowerString (replCharStr '-' '_' (replCharStr ' ' '_' txt))

/-- The `for k, v in doc.items()` loop of `create_vars_from_doc`: rename
the `name` field to `<scrubbed doctype>_name`, drop composite values,
render date values through `get_datetime_str`, and append everything
else as `{"name": k, "content": v}`. -/
def varsLoop (doctype : String) : Doc → Doc
  | [] => []
  | (k, v) :: rest =>
    let k2 := if k == "name" then scrub doctype ++ "_" ++ k else k
    match v with
    | DocVal.lst _ => varsLoop doctype rest
    | DocVal.tup _ => varsLoop doctype rest
    | DocVal.dict _ => varsLoop doctype rest
    | DocVal.date y m d => (k2, DocVal.s (get_datetime_str y m d)) :: varsLoop doctype rest
    | v => (k2, v) :: varsLoop doctype rest

/-- `create_vars_from_doc`: empty list for a falsy or empty document,
otherwise the loop above with the lowercased doctype.  The result is
`none` when the Python code would crash dereferencing
`doc.get("doctype").lower()` on a missing (or non-string) doctype. -/
def create_vars_from_doc : Option Doc → Option Doc
  | none => some []
  | some doc =>
    let d := as_dict_nn doc
    if d.length == 0 then
      some []
    else
      match docGet d "doctype" with
      | DocVal.s t => some (varsLoop (lowerString t) d)
      | _ => none

/-!
## Helper lemmas
-/

theorem checkEmails_ok_iff (rs : List Dict) :
    checkEmails rs = .ok () ↔ ∀ r ∈ rs, pyGet r "email" ≠ JVal.null := by
  induction rs with
  | nil => simp [checkEmails]
  | cons r rest ih =>
    by_cases h : pyGet r "email" = JVal.null
    · simp [checkEmails, h]
    · simp [checkEmails, h, ih]

theorem checkEmails_cases (rs : List Dict) :
    checkEmails rs = .ok ()
      ∨ checkEmails rs = .error (.validationError "Email must be specified") := by
  induction rs with
  | nil => left; rfl
  | cons r rest ih =>
    by_cases h : pyGet r "email" = JVal.null
    · right; simp [checkEmails, h]
    · simpa [checkEmails, h] using ih

theorem validate_recipients_missingEmail (rs : List Dict)
    (h : ∃ r ∈ rs, pyGet r "email" = JVal.null) :
    _validate_recipients (some rs) = .error (.validationError "Email must be specified") := by
  obtain ⟨r, hr, hnull⟩ := h
  have hne : rs.length ≠ 0 := by
    cases rs
    · simp at hr
    · simp
  have hnok : checkEmails rs ≠ .ok () := by
    intro hok
    rw [checkEmails_ok_iff] at hok
    exact hok r hr hnull
  rcases checkEmails_cases rs with hok | herr
  · exact absurd hok hnok
  · simp [_validate_recipients, hne, herr]

/-- A concrete environment whose provider call always succeeds. -/
def env0 : Env := Env.mk (fun _ => none) (some "k") (fun _ _ => .ok (.s "sent"))

/-!
## Claims
-/

/-- C1 (counterexample): with `raise_exc = false` and a recipient list
whose single entry lacks an `email`, `send_email_with_template` does not
fail: the `MissingEmail` validation error is swallowed by the
`except Exception` clause, one `"Mailchimp: Error"` entry is logged, and
the call returns no result. -/
theorem c1_counterexample :
    send_email_with_template env0 (.lst [[("x", JVal.s "1")]]) "f@x.com"
        (some "t") (.lst []) none false
      = (.ok none, ["Mailchimp: Error"])
    ∧ (send_email_with_template env0 (.lst [[("x", JVal.s "1")]]) "f@x.com"
        (some "t") (.lst []) none false).1
      ≠ .error (.validationError "Email must be specified") := by
  constructor
  · rfl
  · decide

/-- C1 (amended): for a recipient list in which some entry lacks an
`email`, `send_email_with_template` raises `MissingEmail` when
`raise_exc = true`; when `raise_exc = false` the validation error is
suppressed by the catch-all `except Exception` clause: the call logs one
`"Mailchimp: Error"` entry and returns no result. -/
theorem c1_missingEmail (env : Env) (rs vs : List Dict) (fe t : String)
    (subj : Option String)
    (h : ∃ r ∈ rs, pyGet r "email" = JVal.null) :
    send_email_with_template env (.lst rs) fe (some t) (.lst vs) subj true
      = (.error (.validationError "Email must be specified"), [])
    ∧ send_email_with_template env (.lst rs) fe (some t) (.lst vs) subj false
      = (.ok none, ["Mailchimp: Error"]) := by
  have hval := validate_recipients_missingEmail rs h
  have hmsg : _send_message env (some rs) subj fe (some t) (some vs)
      = .error (.validationError "Email must be specified") := by
    simp [_send_message, hval, Bind.bind, Except.bind]
  constructor <;>
    simp [send_email_with_template, normalizeArg, hmsg]

/-- C1 (witness): the amended claim at a concrete recipient with no
`email` field. -/
theorem c1_missingEmail_witness :
    send_email_with_template env0 (.lst [[("x", JVal.s "1")]]) "f@x.com"
        (some "t") (.lst []) none true
      = (.error (.validationError "Email must be specified"), [])
    ∧ send_email_with_template env0 (.lst [[("x", JVal.s "1")]]) "f@x.com"
        (some "t") (.lst []) none false
      = (.ok none, ["Mailchimp: Error"]) :=
  c1_missingEmail env0 [[("x", JVal.s "1")]] [] "f@x.com" "t" none
    ⟨[("x", JVal.s "1")], by decide, by decide⟩

/-- C2: with `raise_exc = false`, when the provider call raises
`ApiClientError`, the call returns no result, logs exactly one
`"Mailchimp: API Error"` entry (the label reserved for `ApiClientError`,
distinct from the generic `"Mailchimp: Error"`), and propagates
nothing. -/
theorem c2_silent_apiClientError (env : Env) (rs vs : List Dict)
    (fe t k d : String) (subj : Option String)
    (hr : _validate_recipients (some rs) = .ok ())
    (hv : _validate_template (some t) (some vs) = .ok ())
    (hk : env.apiKey = some k)
    (hp : ∀ key pl, env.sendTemplate key pl = .error (.apiClientError d)) :
    send_email_with_template env (.lst rs) fe (some t) (.lst vs) subj false
      = (.ok none, ["Mailchimp: API Error"]) := by
  have hmsg : _send_message env (some rs) subj fe (some t) (some vs)
      = .error (.apiClientError d) := by
    simp [_send_message, hr, hv, get_mailchimp_api_key, hk, hp, Bind.bind, Except.bind]
  simp [send_email_with_template, normalizeArg, hmsg]

/-- A concrete environment whose provider call always raises
`ApiClientError`. -/
def envApiErr : Env :=
  Env.mk (fun _ => none) (some "k") (fun _ _ => .error (.apiClientError "boom"))

/-- C2 (witness): the silent API-error outcome at a concrete valid
call. -/
theorem c2_silent_apiClientError_witness :
    send_email_with_template envApiErr (.lst [[("email", JVal.s "a@b.c")]])
        "f@x.com" (some "t") (.lst []) none false
      = (.ok none, ["Mailchimp: API Error"]) :=
  c2_silent_apiClientError envApiErr [[("email", JVal.s "a@b.c")]] []
    "f@x.com" "t" "k" "boom" none (by decide) (by decide) rfl
    (fun _ _ => rfl)

/-- C3: with `raise_exc = true`, any error raised by the provider call
propagates to the caller unchanged and no log entry is written. -/
theorem c3_raise_propagates (env : Env) (rs vs : List Dict)
    (fe t k : String) (subj : Option String) (e : Exc)
    (hr : _validate_recipients (some rs) = .ok ())
    (hv : _validate_template (some t) (some vs) = .ok ())
    (hk : env.apiKey = some k)
    (hp : ∀ key pl, env.sendTemplate key pl = .error e) :
    send_email_with_template env (.lst rs) fe (some t) (.lst vs) subj true
      = (.error e, []) := by
  have hmsg : _send_message env (some rs) subj fe (some t) (some vs)
      = .error e := by
    simp [_send_message, hr, hv, get_mailchimp_api_key, hk, hp, Bind.bind, Except.bind]
  simp [send_email_with_template, normalizeArg, hmsg]

/-- C3 (witness): the raise-mode propagation at a concrete valid call. -/
theorem c3_raise_propagates_witness :
    send_email_with_template envApiErr (.lst [[("email", JVal.s "a@b.c")]])
        "f@x.com" (some "t") (.lst []) none true
      = (.error (.apiClientError "boom"), []) :=
  c3_raise_propagates envApiErr [[("email", JVal.s "a@b.c")]] []
    "f@x.com" "t" "k" none (.apiClientError "boom") (by decide) (by decide)
    rfl (fun _ _ => rfl)

/-- A concrete environment with no configured API key. -/
def envNoKey : Env := Env.mk (fun _ => none) none (fun _ _ => .ok (.s "sent"))

/-- C4 (counterexample): with `raise_exc = false`, a missing API key does
not propagate `MissingCredential`: the `frappe.throw` from
`get_mailchimp_api_key` happens inside the try/except, is caught by
`except Exception`, logged as `"Mailchimp: Error"`, and the call returns
no result. -/
theorem c4_counterexample :
    send_email_with_template envNoKey (.lst [[("email", JVal.s "a@b.c")]])
        "f@x.com" (some "t") (.lst []) none false
      = (.ok none, ["Mailchimp: Error"])
    ∧ (send_email_with_template envNoKey (.lst [[("email", JVal.s "a@b.c")]])
        "f@x.com" (some "t") (.lst []) none false).1
      ≠ .error (.validationError "Mailchimp API Key not specified") := by
  constructor
  · rfl
  · decide

/-- C4 (amended): when the configuration lookup returns no API key,
`send_email_with_template` raises `MissingCredential` ("Mailchimp API
Key not specified") with `raise_exc = true`; with `raise_exc = false`
that error is caught like any other exception from the try block: one
`"Mailchimp: Error"` log entry, no result, nothing propagated. -/
theorem c4_missingCredential (env : Env) (rs vs : List Dict) (fe t : String)
    (subj : Option String)
    (hr : _validate_recipients (some rs) = .ok ())
    (hv : _validate_template (some t) (some vs) = .ok ())
    (hk : env.apiKey = none) :
    send_email_with_template env (.lst rs) fe (some t) (.lst vs) subj true
      = (.error (.validationError "Mailchimp API Key not specified"), [])
    ∧ send_email_with_template env (.lst rs) fe (some t) (.lst vs) subj false
      = (.ok none, ["Mailchimp: Error"]) := by
  have hmsg : _send_message env (some rs) subj fe (some t) (some vs)
      = .error (.validationError "Mailchimp API Key not specified") := by
    simp [_send_message, hr, hv, get_mailchimp_api_key, hk, Bind.bind, Except.bind]
  constructor <;>
    simp [send_email_with_template, normalizeArg, hmsg]

/-- C4 (witness): the amended claim at a concrete valid call against
`envNoKey`. -/
theorem c4_missingCredential_witness :
    send_email_with_template envNoKey (.lst [[("email", JVal.s "a@b.c")]])
        "f@x.com" (some "t") (.lst []) none true
      = (.error (.validationError "Mailchimp API Key not specified"), [])
    ∧ send_email_with_template envNoKey (.lst [[("email", JVal.s "a@b.c")]])
        "f@x.com" (some "t") (.lst []) none false
      = (.ok none, ["Mailchimp: Error"]) :=
  c4_missingCredential envNoKey [[("email", JVal.s "a@b.c")]] []
    "f@x.com" "t" none (by decide) (by decide) rfl

/-- C5: a serialized `recipients` or `variables` argument whose parse
fails raises `MalformedInput` (`JSONDecodeError`) for both values of
`raise_exc`: `json.loads` runs before the try/except is entered, so the
error always propagates and nothing is logged. -/
theorem c5_malformedInput (env : Env) (str : String) (rs : List Dict)
    (fe : String) (t : Option String) (vs : List Dict) (subj : Option String)
    (b : Bool) (hs : env.parse str = none) :
    send_email_with_template env (.raw str) fe t (.lst vs) subj b
      = (.error (.jsonDecodeError str), [])
    ∧ send_email_with_template env (.lst rs) fe t (.raw str) subj b
      = (.error (.jsonDecodeError str), []) := by
  constructor <;>
    simp [send_email_with_template, normalizeArg, hs]

/-- C5 (witness): the malformed-input outcome at a concrete string
`env0.parse` rejects, in both raise modes. -/
theorem c5_malformedInput_witness :
    (send_email_with_template env0 (.raw "not json") "f@x.com" (some "t")
        (.lst []) none false
      = (.error (.jsonDecodeError "not json"), [])
    ∧ send_email_with_template env0 (.lst [[("email", JVal.s "a@b.c")]])
        "f@x.com" (some "t") (.raw "not json") none false
      = (.error (.jsonDecodeError "not json"), []))
    ∧ (send_email_with_template env0 (.raw "not json") "f@x.com" (some "t")
        (.lst []) none true
      = (.error (.jsonDecodeError "not json"), [])
    ∧ send_email_with_template env0 (.lst [[("email", JVal.s "a@b.c")]])
        "f@x.com" (some "t") (.raw "not json") none true
      = (.error (.jsonDecodeError "not json"), [])) :=
  ⟨c5_malformedInput env0 "not json" [[("email", JVal.s "a@b.c")]]
      "f@x.com" (some "t") [] none false rfl,
    c5_malformedInput env0 "not json" [[("email", JVal.s "a@b.c")]]
      "f@x.com" (some "t") [] none true rfl⟩

/-- The serialized recipients literal of the round-trip claim. -/
def c6str : String := "[\x7b\"email\":\"a@example.com\"\x7d]"

/-- The structured recipients equivalent of `c6str`. -/
def c6rec : List Dict := [[("email", JVal.s "a@example.com")]]

/-- C6: when the JSON parser maps the serialized recipients string to
its structured equivalent, the call on the string and the call on the
structure agree completely (same outcome, same logs) for every other
argument and both raise modes; in particular both arguments normalize
to the same recipients value, so the payload handed to the provider is
identical. -/
theorem c6_roundtrip (env : Env) (fe : String) (t : Option String)
    (vars : Arg) (subj : Option String) (b : Bool)
    (hp : env.parse c6str = some c6rec) :
    send_email_with_template env (.raw c6str) fe t vars subj b
      = send_email_with_template env (.lst c6rec) fe t vars subj b
    ∧ normalizeArg env.parse (.raw c6str) = normalizeArg env.parse (.lst c6rec) := by
  constructor
  · simp [send_email_with_template, normalizeArg, hp]
  · simp [normalizeArg, hp]

/-- A concrete environment whose parser accepts exactly `c6str`. -/
def envParse : Env :=
  Env.mk (fun str => if str == c6str then some c6rec else none) (some "k")
    (fun _ _ => .ok (.s "sent"))

/-- C6 (witness): the round-trip equality under `envParse`. -/
theorem c6_roundtrip_witness :
    send_email_with_template envParse (.raw c6str) "f@x.com" (some "t")
        (.lst []) none true
      = send_email_with_template envParse (.lst c6rec) "f@x.com" (some "t")
        (.lst []) none true
    ∧ normalizeArg envParse.parse (.raw c6str)
      = normalizeArg envParse.parse (.lst c6rec) :=
  c6_roundtrip envParse "f@x.com" (some "t") (.lst []) none true (by decide)

/-- The recipients of the C7 scenario. -/
def c7rs : List Dict := [[("email", JVal.s "x@y.com")]]

/-- The variables of the C7 scenario. -/
def c7vs : List Dict := [[("name", JVal.s "first_name"), ("content", JVal.s "Jo")]]

/-- The payload the C7 scenario sends. -/
def c7payload : Payload :=
  mkPayload (some "welcome") (some c7rs) none "no-reply@y.com" (some c7vs)

/-- C7: for the scenario call (raise mode, subject `None`), the outbound
payload carries `message.to == [{"email": "x@y.com"}]`,
`template_name == "welcome"`, the variables as `global_merge_vars` with
`template_content == []` and `merge_language == "handlebars"`, and a
successful provider call's raw response is returned unchanged with no
log entry. -/
theorem c7_scenario (env : Env) (k : String) (resp : JVal)
    (hk : env.apiKey = some k)
    (hcall : env.sendTemplate k c7payload = .ok resp) :
    send_email_with_template env (.lst c7rs) "no-reply@y.com"
        (some "welcome") (.lst c7vs) none true
      = (.ok (some resp), [])
    ∧ c7payload.message.msg_to = some [[("email", JVal.s "x@y.com")]]
    ∧ c7payload.template_name = some "welcome"
    ∧ c7payload.message.global_merge_vars
        = some [[("name", JVal.s "first_name"), ("content", JVal.s "Jo")]]
    ∧ c7payload.template_content = []
    ∧ c7payload.message.merge_language = "handlebars" := by
  refine ⟨?_, rfl, rfl, rfl, rfl, rfl⟩
  have hr : _validate_recipients (some c7rs) = .ok () := by decide
  have hv : _validate_template (some "welcome") (some c7vs) = .ok () := by decide
  have hcall' : env.sendTemplate k
      (mkPayload (some "welcome") (some c7rs) none "no-reply@y.com" (some c7vs))
      = .ok resp := hcall
  have hmsg : _send_message env (some c7rs) none "no-reply@y.com"
      (some "welcome") (some c7vs) = .ok resp := by
    simp [_send_message, hr, hv, get_mailchimp_api_key, hk, hcall',
      Bind.bind, Except.bind]
  simp [send_email_with_template, normalizeArg, hmsg]

/-- C7 (witness): the scenario against `env0`, whose provider returns
the response `"sent"`. -/
theorem c7_scenario_witness :
    send_email_with_template env0 (.lst c7rs) "no-reply@y.com"
        (some "welcome") (.lst c7vs) none true
      = (.ok (some (.s "sent")), [])
    ∧ c7payload.message.msg_to = some [[("email", JVal.s "x@y.com")]]
    ∧ c7payload.template_name = some "welcome"
    ∧ c7payload.message.global_merge_vars
        = some [[("name", JVal.s "first_name"), ("content", JVal.s "Jo")]]
    ∧ c7payload.template_content = []
    ∧ c7payload.message.merge_language = "handlebars" :=
  c7_scenario env0 "k" (.s "sent") rfl rfl

/-- The document of the C8 scenario. -/
def c8doc : Doc :=
  [("doctype", .s "Lead"), ("name", .s "L-0001"), ("score", .i 7),
    ("tags", .lst [.s "a", .s "b"])]

/-- C8 (counterexample): `create_vars_from_doc` on the Lead document
does not yield the two-element sequence the claim states: the `doctype`
field is a scalar string, so the loop forwards it as a variable too. -/
theorem c8_counterexample :
    create_vars_from_doc (some c8doc)
      ≠ some [("lead_name", DocVal.s "L-0001"), ("score", DocVal.i 7)] := by
  intro h
  have e : create_vars_from_doc (some c8doc)
      = some [("doctype", DocVal.s "Lead"), ("lead_name", DocVal.s "L-0001"),
          ("score", DocVal.i 7)] := rfl
  rw [e] at h
  have hlen := congrArg (fun o => (Option.getD o []).length) h
  simp at hlen

/-- C8 (amended): `create_vars_from_doc` on the Lead document yields
exactly `[{"name":"doctype","content":"Lead"},
{"name":"lead_name","content":"L-0001"}, {"name":"score","content":7}]`:
the `tags` list field is dropped, `name` is renamed using the lowercased
doctype, and the scalar `doctype` field itself is forwarded as the first
variable. -/
theorem c8_lead_doc :
    create_vars_from_doc (some c8doc)
      = some [("doctype", DocVal.s "Lead"), ("lead_name", DocVal.s "L-0001"),
          ("score", DocVal.i 7)] := rfl

/-- No entry of `as_dict_nn d` carries a null value. -/
theorem as_dict_nn_no_null (d : Doc) :
    ∀ p ∈ as_dict_nn d, p.2 ≠ DocVal.null := by
  intro p hp
  obtain ⟨q, hq, rfl⟩ := List.mem_map.mp hp
  have hnn : q.2.isNull = false := by
    have := (List.mem_filter.mp hq).2
    simpa using this
  cases hv : q.2
  case null => rw [hv] at hnn; simp [DocVal.isNull] at hnn
  case s v => simp [convDate]
  case i v => simp [convDate]
  case b v => simp [convDate]
  case date y m dd => simp [convDate]
  case lst vs => simp [convDate]
  case tup vs => simp [convDate]
  case dict fs => simp [convDate]

/-- `varsLoop` never introduces a null content: every output value is
either an input value or a date rendered as a string. -/
theorem varsLoop_no_null (doctype : String) (l : Doc)
    (h : ∀ p ∈ l, p.2 ≠ DocVal.null) :
    ∀ q ∈ varsLoop doctype l, q.2 ≠ DocVal.null := by
  induction l with
  | nil => simp [varsLoop]
  | cons p rest ih =>
    obtain ⟨k, v⟩ := p
    have hv : v ≠ DocVal.null := h (k, v) (List.Mem.head _)
    have hrest : ∀ p ∈ rest, p.2 ≠ DocVal.null :=
      fun p hp => h p (List.Mem.tail _ hp)
    intro q hq
    cases v with
    | lst vs => exact ih hrest q (by simpa [varsLoop] using hq)
    | tup vs => exact ih hrest q (by simpa [varsLoop] using hq)
    | dict fs => exact ih hrest q (by simpa [varsLoop] using hq)
    | date y m d =>
      rcases List.mem_cons.mp (by simpa [varsLoop] using hq) with hhd | htl
      · subst hhd; simp
      · exact ih hrest q htl
    | null => exact absurd rfl hv
    | s v =>
      rcases List.mem_cons.mp (by simpa [varsLoop] using hq) with hhd | htl
      · subst hhd; simp
      · exact ih hrest q htl
    | i v =>
      rcases List.mem_cons.mp (by simpa [varsLoop] using hq) with hhd | htl
      · subst hhd; simp
      · exact ih hrest q htl
    | b v =>
      rcases List.mem_cons.mp (by simpa [varsLoop] using hq) with hhd | htl
      · subst hhd; simp
      · exact ih hrest q htl

/-- C10: `create_vars_from_doc` never emits a variable whose content is
null: the document is passed through `as_dict(no_nulls=True)` before the
loop, so null-valued fields are gone before iteration, and the loop
itself only forwards those values or date strings. -/
theorem c10_no_null_content (doc : Option Doc) (out : Doc)
    (h : create_vars_from_doc doc = some out) :
    ∀ p ∈ out, p.2 ≠ DocVal.null := by
  cases doc with
  | none =>
    have : out = [] := by simpa [create_vars_from_doc] using h.symm
    simp [this]
  | some d =>
    simp only [create_vars_from_doc] at h
    split at h
    · have : out = [] := by simpa using h.symm
      simp [this]
    · split at h
      · have h' := Option.some.inj h
        rw [← h']
        exact varsLoop_no_null _ _ (as_dict_nn_no_null d)
      · exact absurd h (by simp)

/-- C10 (witness): the no-null-content property applied to the Lead
document's output at the `("score", 7)` entry. -/
theorem c10_no_null_content_witness :
    create_vars_from_doc (some c8doc)
      = some [("doctype", DocVal.s "Lead"), ("lead_name", DocVal.s "L-0001"),
          ("score", DocVal.i 7)]
    ∧ ("score", DocVal.i 7).2 ≠ DocVal.null :=
  ⟨rfl,
    c10_no_null_content (some c8doc)
      [("doctype", DocVal.s "Lead"), ("lead_name", DocVal.s "L-0001"),
        ("score", DocVal.i 7)]
      rfl ("score", DocVal.i 7)
      (List.Mem.tail _ (List.Mem.tail _ (List.Mem.head _)))⟩

/-- C9 (counterexample): a recipient whose `email` is present but the
empty string passes `_validate_recipients` (only `None`/absent emails
are rejected), the payload's `message.to` carries that recipient, and
the full send proceeds to the provider and succeeds. -/
theorem c9_counterexample :
    _validate_recipients (some [[("email", JVal.s "")]]) = Except.ok ()
    ∧ (mkPayload (some "t") (some [[("email", JVal.s "")]]) none "f@x.com"
        (some [])).message.msg_to = some [[("email", JVal.s "")]]
    ∧ send_email_with_template env0 (.lst [[("email", JVal.s "")]]) "f@x.com"
        (some "t") (.lst []) none true
      = (.ok (some (.s "sent")), []) := by
  exact ⟨by decide, rfl, by rfl⟩

/-- C9 (amended): `_validate_recipients` accepts exactly the non-empty
recipient lists in which every entry's `email` is non-null — presence is
checked, non-emptiness of the string is not, so `""` is accepted and
flows into the payload. -/
theorem c9_email_presence (rs : List Dict) :
    _validate_recipients (some rs) = .ok ()
      ↔ rs ≠ [] ∧ ∀ r ∈ rs, pyGet r "email" ≠ JVal.null := by
  cases rs with
  | nil => simp [_validate_recipients]
  | cons r rest => simp [_validate_recipients, checkEmails_ok_iff]

/-- C9 (witness): the amended characterization applied to the
empty-string-email recipient list. -/
theorem c9_email_presence_witness :
    _validate_recipients (some [[("email", JVal.s "")]]) = .ok () :=
  (c9_email_presence [[("email", JVal.s "")]]).mpr (by decide)

end FrappeMailchimp
